import Mathlib

/-!
Verification of the rotation-equivariant convolution core of
dip-inpainting-registration against its specification.

Tensors are embedded as their row-major flat vectors, `Nat → ℚ`
(PyTorch float tensors; all properties checked here are exact index
re-arrangements, so an exact field is the appropriate carrier).
`torch.reshape` of a contiguous tensor is the identity on the flat
vector; axis permutations and slicing become index arithmetic; the
sparse matrix product `torch.sparse.mm` becomes a finite sum.

The module `rotation` (function `MultiRotationOperatorMatrixSparse`,
imported from `src.rotation` resp. `RotoTrans.rotation`) is not among
the sources under review; the two operators needed by concrete
evaluations are modelled from the spec, as marked below.
-/

/-- Flat 4-axis tensor accessor type: batch, channel, height, width. -/
abbrev Map4 := Nat → Nat → Nat → Nat → ℚ

/-- Flat 5-axis tensor accessor type: batch, orientation, channel, height, width. -/
abbrev Map5 := Nat → Nat → Nat → Nat → Nat → ℚ

/-- Modelled from the spec: `rotation.MultiRotationOperatorMatrixSparse` is not
under src/. Section 8 of the spec requires the rotation operator built for
orientationCount = 1 to be the identity mapping on the flattened kernel grid
(the single angle is 0), so the sparse matrix of shape [1*kHW, kHW] is the
identity matrix. -/
def specRotationOperatorN1 (q p : Nat) : ℚ :=
  if q = p then 1 else 0

/-- Modelled from the spec: `rotation.MultiRotationOperatorMatrixSparse` is not
under src/. For a 1-by-1 kernel grid every rotation angle maps the single
(center) pixel to itself with interpolation weight 1, and the center is inside
the disk mask, so the operator of shape [N*1*1, 1*1] has every row equal to
the single unit row. -/
def specRotationOperator1x1 (N : Nat) (q p : Nat) : ℚ :=
  if p = 0 ∧ q < N then 1 else 0

/-- Shared first steps of rotate_lifting_kernels and rotate_gconv_kernels
(both files): torch.reshape of the kernel to [rows, kH*kW] followed by
torch.transpose(-, 0, 1).  The kernel is given as its row-major flat vector;
entry at (pixel p, column r) of the transposed matrix is kernel entry
r * kHW + p. -/
def kernelColumns (kHW : Nat) (K : Nat → ℚ) (p r : Nat) : ℚ :=
  K (r * kHW + p)

/-- torch.sparse.mm(rotOp_matrix, kernel_flat): entry (q, r) of the product of
the sparse rotation operator with the transposed flattened kernel. -/
def rotMM (kHW : Nat) (rotOp : Nat → Nat → ℚ) (K : Nat → ℚ) (q r : Nat) : ℚ :=
  ∑ p in Finset.range kHW, rotOp q p * kernelColumns kHW K p r

/-- Row-major flat view of the matrix `rotMM kHW rotOp K`, whose column count
is rCols; this is what the subsequent torch.reshape calls reinterpret. -/
def rotMMflat (kHW rCols : Nat) (rotOp : Nat → Nat → ℚ) (K : Nat → ℚ) (t : Nat) : ℚ :=
  rotMM kHW rotOp K (t / rCols) (t % rCols)

/-- rotate_lifting_kernels of src/src/Nathan/layers.py (lines 17-66): the
matrix product (columns cIN*cOUT) is reshaped to [N, kH, kW, cIN, cOUT] and
permuted by (0,4,3,1,2) to [N, cOUT, cIN, kH, kW]; entry at (n, co, ci, h, w)
is therefore the flat product entry at offset
(((n*kH + h)*kW + w)*cIN + ci)*cOUT + co. -/
def Nathan.rotate_lifting_kernels (cOUT cIN kH kW : Nat) (rotOp : Nat → Nat → ℚ)
    (K : Nat → ℚ) (n co ci h w : Nat) : ℚ :=
  rotMMflat (kH * kW) (cIN * cOUT) rotOp K ((((n * kH + h) * kW + w) * cIN + ci) * cOUT + co)

/-- rotate_lifting_kernels of src/src/Quentin/rototranslation.py (lines 9-76):
the matrix product is reshaped directly to (N, cOUT, cIN, kH, kW) with no
intermediate interpretation and no permute; entry at (n, co, ci, h, w) is the
flat product entry at offset (((n*cOUT + co)*cIN + ci)*kH + h)*kW + w. -/
def Quentin.rotate_lifting_kernels (cOUT cIN kH kW : Nat) (rotOp : Nat → Nat → ℚ)
    (K : Nat → ℚ) (n co ci h w : Nat) : ℚ :=
  rotMMflat (kH * kW) (cIN * cOUT) rotOp K ((((n * cOUT + co) * cIN + ci) * kH + h) * kW + w)

/-- PART 1 of rotate_gconv_kernels in src/src/Nathan/layers.py (lines 154-182):
the product (columns N*cOUT*cIN) is reshaped to [N, kH, kW, N, cOUT, cIN] and
permuted by (3,4,5,0,1,2) to [N(kernel), cOUT, cIN, N(rotation), kH, kW];
entry at (nk, co, ci, nr, h, w) is the flat product entry at offset
((((nr*kH + h)*kW + w)*N + nk)*cOUT + co)*cIN + ci. -/
def Nathan.kernels_planar_rotated (N cOUT cIN kH kW : Nat) (rotOp : Nat → Nat → ℚ)
    (K : Nat → ℚ) (nk co ci nr h w : Nat) : ℚ :=
  rotMMflat (kH * kW) (N * cOUT * cIN) rotOp K
    (((((nr * kH + h) * kW + w) * N + nk) * cOUT + co) * cIN + ci)

/-- PART 1 of rotate_gconv_kernels in src/src/Quentin/rototranslation.py
(lines 169-204): the product is reshaped to [N, kH, kW, N, cIN, cOUT] and not
permuted; entry at (nr, h, w, nk, ci, co) is the flat product entry at offset
((((nr*kH + h)*kW + w)*N + nk)*cIN + ci)*cOUT + co. -/
def Quentin.kernels_planar_rotated (N cOUT cIN kH kW : Nat) (rotOp : Nat → Nat → ℚ)
    (K : Nat → ℚ) (nr h w nk ci co : Nat) : ℚ :=
  rotMMflat (kH * kW) (N * cOUT * cIN) rotOp K
    (((((nr * kH + h) * kW + w) * N + nk) * cIN + ci) * cOUT + co)

/-- Entry (k, j) of np.roll(np.identity(N), s, axis=1): column j of the rolled
identity holds the 1 at row k with k = (j - s) mod N, i.e. (for k, j < N)
exactly when (k + s) % N = j % N. -/
def rollMatrix (N s k j : Nat) : ℚ :=
  if (k + s) % N = j % N then 1 else 0

/-- PART 2 of rotate_gconv_kernels in src/src/Nathan/layers.py (lines 184-200):
for each shift s the slice kernels_planar_rotated[:,:,:,s,:,:] is permuted
orientation-last by (1,2,3,4,0), flattened row-wise to
[cOUT*cIN*kH*kW, N], right-multiplied by np.roll(identity(N), s, axis=1),
reshaped back to [cOUT, cIN, kH, kW, N] and permuted by (0,1,4,2,3) to
[cOUT, cIN, N, kH, kW]; torch.stack gives the entry at (s, co, ci, j, h, w).
The matrix product only acts on the trailing orientation index, so the row
reshapes cancel pointwise. -/
def Nathan.rotate_gconv_kernels (N cOUT cIN kH kW : Nat) (rotOp : Nat → Nat → ℚ)
    (K : Nat → ℚ) (s co ci j h w : Nat) : ℚ :=
  ∑ k in Finset.range N,
    Nathan.kernels_planar_rotated N cOUT cIN kH kW rotOp K k co ci s h w * rollMatrix N s k j

/-- PART 2 of rotate_gconv_kernels in src/src/Quentin/rototranslation.py
(lines 208-228): for each shift s the slice kernels_planar_rotated[s] of shape
[kH, kW, N, cIN, cOUT] is permuted orientation-last by (0,1,3,4,2), flattened
row-wise to [kH*kW*cIN*cOUT, N], right-multiplied by
np.roll(identity(N), s, axis=1) and reshaped back to [kH, kW, cIN, cOUT, N];
torch.stack gives the entry at (s, h, w, ci, co, j). -/
def Quentin.rotate_gconv_kernels (N cOUT cIN kH kW : Nat) (rotOp : Nat → Nat → ℚ)
    (K : Nat → ℚ) (s h w ci co j : Nat) : ℚ :=
  ∑ k in Finset.range N,
    Quentin.kernels_planar_rotated N cOUT cIN kH kW rotOp K s h w k ci co * rollMatrix N s k j

/-- Right multiplication by the rolled identity picks the source entry at
index (j + (N - s)) % N, which is (j - s) mod N: the cyclic roll by s. -/
lemma roll_sum (N s j : Nat) (hs : s < N) (hj : j < N) (f : Nat → ℚ) :
    ∑ k in Finset.range N, f k * rollMatrix N s k j = f ((j + (N - s)) % N) := by
  have hN : 0 < N := Nat.lt_of_le_of_lt (Nat.zero_le s) hs
  have hk0 : (j + (N - s)) % N < N := Nat.mod_lt _ hN
  rw [Finset.sum_eq_single ((j + (N - s)) % N)]
  · have hhit : ((j + (N - s)) % N + s) % N = j % N := by
      rw [Nat.mod_add_mod]
      have hsum : j + (N - s) + s = j + N := by omega
      rw [hsum, Nat.add_mod_right]
    rw [rollMatrix, if_pos hhit, mul_one]
  · intro k hk hne
    have hkN : k < N := Finset.mem_range.mp hk
    have hmiss : (k + s) % N ≠ j % N := by
      intro hEq
      apply hne
      calc k = k % N := (Nat.mod_eq_of_lt hkN).symm
        _ = (k + N) % N := (Nat.add_mod_right k N).symm
        _ = (k + s + (N - s)) % N := by rw [show k + s + (N - s) = k + N by omega]
        _ = ((k + s) % N + (N - s)) % N := (Nat.mod_add_mod (k + s) N (N - s)).symm
        _ = (j % N + (N - s)) % N := by rw [hEq]
        _ = (j + (N - s)) % N := Nat.mod_add_mod j N (N - s)
    rw [rollMatrix, if_neg hmiss, mul_zero]
  · intro habs
    exact absurd (Finset.mem_range.mpr hk0) habs

/-- Concrete test kernel used by the counterexamples: the flat vector whose
entry at offset t is the rational number t, so distinct kernel positions hold
distinct values. -/
def exKernel : Nat → ℚ :=
  fun t => (t : ℚ)

/-- Claim C3: in both implementations of rotate_gconv_kernels, the entry of
the output stack at shift s equals the planar-rotated slice for rotation
index s with its original-orientation axis cyclically rolled by s positions
(the rolled index is (j - s) mod N = (j + (N - s)) % N), and both the planar
rotation and the shift use the same orientation count N taken from the first
axis of the kernel shape. -/
theorem c3_gconv_shift_rolls_orientation
    (N cOUT cIN kH kW : Nat) (rotOp : Nat → Nat → ℚ) (K : Nat → ℚ)
    (s j : Nat) (hs : s < N) (hj : j < N) (co ci h w : Nat) :
    Nathan.rotate_gconv_kernels N cOUT cIN kH kW rotOp K s co ci j h w
      = Nathan.kernels_planar_rotated N cOUT cIN kH kW rotOp K
          ((j + (N - s)) % N) co ci s h w
    ∧ Quentin.rotate_gconv_kernels N cOUT cIN kH kW rotOp K s h w ci co j
      = Quentin.kernels_planar_rotated N cOUT cIN kH kW rotOp K
          s h w ((j + (N - s)) % N) ci co := by
  constructor
  · exact roll_sum N s j hs hj
      (fun k => Nathan.kernels_planar_rotated N cOUT cIN kH kW rotOp K k co ci s h w)
  · exact roll_sum N s j hs hj
      (fun k => Quentin.kernels_planar_rotated N cOUT cIN kH kW rotOp K s h w k ci co)

/-- Witness for C3: the theorem applied at N = 2, shift s = 1, target
orientation j = 0 with a concrete operator and kernel. -/
theorem c3_gconv_shift_rolls_orientation_witness :
    (1 < 2 ∧ 0 < 2)
    ∧ (Nathan.rotate_gconv_kernels 2 1 1 1 1 (specRotationOperator1x1 2) exKernel 1 0 0 0 0 0
        = Nathan.kernels_planar_rotated 2 1 1 1 1 (specRotationOperator1x1 2) exKernel
            ((0 + (2 - 1)) % 2) 0 0 1 0 0
      ∧ Quentin.rotate_gconv_kernels 2 1 1 1 1 (specRotationOperator1x1 2) exKernel 1 0 0 0 0 0
        = Quentin.kernels_planar_rotated 2 1 1 1 1 (specRotationOperator1x1 2) exKernel
            1 0 0 ((0 + (2 - 1)) % 2) 0 0) :=
  ⟨⟨by decide, by decide⟩,
    c3_gconv_shift_rolls_orientation 2 1 1 1 1 (specRotationOperator1x1 2) exKernel
      1 0 (by decide) (by decide) 0 0 0 0⟩

/-- Claim C9: the rotation-operator construction and the kernel rotations are
deterministic; two calls with identical arguments give identical results.  In
the embedding the operator and the four rotation functions are pure, so equal
inputs give definitionally equal outputs. -/
theorem c9_rotation_deterministic (N cOUT cIN kH kW : Nat)
    (rotOp1 rotOp2 : Nat → Nat → ℚ) (K1 K2 : Nat → ℚ)
    (hop : rotOp1 = rotOp2) (hk : K1 = K2) :
    Nathan.rotate_lifting_kernels cOUT cIN kH kW rotOp1 K1
      = Nathan.rotate_lifting_kernels cOUT cIN kH kW rotOp2 K2
    ∧ Quentin.rotate_lifting_kernels cOUT cIN kH kW rotOp1 K1
      = Quentin.rotate_lifting_kernels cOUT cIN kH kW rotOp2 K2
    ∧ Nathan.rotate_gconv_kernels N cOUT cIN kH kW rotOp1 K1
      = Nathan.rotate_gconv_kernels N cOUT cIN kH kW rotOp2 K2
    ∧ Quentin.rotate_gconv_kernels N cOUT cIN kH kW rotOp1 K1
      = Quentin.rotate_gconv_kernels N cOUT cIN kH kW rotOp2 K2 := by
  subst hop
  subst hk
  exact ⟨rfl, rfl, rfl, rfl⟩

/-- Witness for C9: two builds with the same arguments agree. -/
theorem c9_rotation_deterministic_witness :
    (specRotationOperatorN1 = specRotationOperatorN1 ∧ exKernel = exKernel)
    ∧ Nathan.rotate_lifting_kernels 1 1 1 1 specRotationOperatorN1 exKernel
        = Nathan.rotate_lifting_kernels 1 1 1 1 specRotationOperatorN1 exKernel :=
  ⟨⟨rfl, rfl⟩,
    (c9_rotation_deterministic 1 1 1 1 1 specRotationOperatorN1 specRotationOperatorN1
      exKernel exKernel rfl rfl).1⟩

/-- Shape of a 5-axis SE2N tensor: [batch, orientation, channel, height, width]. -/
structure Shape5 where
  batch : Nat
  orient : Nat
  chan : Nat
  height : Nat
  width : Nat
deriving DecidableEq

/-- Shape behaviour of NN_z2_se2n._conv_forward (src/src/Nathan/layers.py,
lines 100-125; constructor defaults stride 1, padding valid): the kernel-side
reshapes always succeed; F.conv2d succeeds exactly when the input channel
count equals the configured channelsIN and the spatial extent covers the
kernel, and then has N*cOUT output channels, which the final reshape splits
into the orientation and channel axes.  None is the propagated host-runtime
error. -/
def Nathan.z2_forward_shape (Ntheta cOUT cIN kH kW B Cin H W : Nat) : Option Shape5 :=
  if Cin = cIN ∧ kH ≤ H ∧ kW ≤ W then
    some ⟨B, Ntheta, cOUT, H - kH + 1, W - kW + 1⟩
  else none

/-- Shape behaviour of NN_se2n_se2n._conv_forward (src/src/Nathan/layers.py,
lines 232-261, identically se2n_se2n in src/src/Quentin/rototranslation.py):
torch.reshape of the input [B, Nin, Cin, H, W] to [B, N*cIN, H, W] succeeds
exactly when Nin*Cin = N*cIN (element counts must agree); after it the merged
channel counts of input and kernel stack agree by construction, so F.conv2d
succeeds whenever the spatial extent covers the kernel, and the output is
reshaped to [B, N, cOUT, H-kH+1, W-kW+1].  No orientation or channel check
appears anywhere in the source. -/
def Nathan.se2n_forward_shape (N cOUT cIN kH kW B Nin Cin H W : Nat) : Option Shape5 :=
  if Nin * Cin = N * cIN ∧ kH ≤ H ∧ kW ≤ W then
    some ⟨B, N, cOUT, H - kH + 1, W - kW + 1⟩
  else none

/-- Claim C4 (refuting evaluation): a group-convolution forward whose input
orientation axis (4) differs from the kernel orientation count (2) and whose
input channel count (1) differs from the kernel channelsIN (2) does not fail:
because 4*1 = 2*2 the input reshape succeeds and the call returns a
well-shaped [1, 2, 1, 5, 5] output instead of raising a shape error. -/
theorem c4_no_shape_mismatch_check :
    Nathan.se2n_forward_shape 2 1 2 1 1 1 4 1 5 5 = some ⟨1, 2, 1, 5, 5⟩ := by
  decide

/-- Claim C5: whenever the lifting (NN_z2_se2n) or the group (NN_se2n_se2n)
convolution forward succeeds, the orientation axis of the returned 5-axis
tensor has size exactly the configured orientation count (the lifting Ntheta,
the group kernel first-axis N). -/
theorem c5_orientation_axis_size
    (Ntheta cOUT cIN kH kW B Cin H W : Nat)
    (N2 cOUT2 cIN2 kH2 kW2 B2 Nin2 Cin2 H2 W2 : Nat) (o1 o2 : Shape5)
    (h1 : Nathan.z2_forward_shape Ntheta cOUT cIN kH kW B Cin H W = some o1)
    (h2 : Nathan.se2n_forward_shape N2 cOUT2 cIN2 kH2 kW2 B2 Nin2 Cin2 H2 W2 = some o2) :
    o1.orient = Ntheta ∧ o2.orient = N2 := by
  unfold Nathan.z2_forward_shape at h1
  unfold Nathan.se2n_forward_shape at h2
  constructor
  · split at h1
    · cases h1
      rfl
    · exact absurd h1 (by simp)
  · split at h2
    · cases h2
      rfl
    · exact absurd h2 (by simp)

/-- Witness for C5: a successful lifting forward with Ntheta = 4 and a
successful group forward with N = 8 both report the configured orientation
count on axis 1. -/
theorem c5_orientation_axis_size_witness :
    (Nathan.z2_forward_shape 4 2 3 3 3 1 3 9 9 = some ⟨1, 4, 2, 7, 7⟩
      ∧ Nathan.se2n_forward_shape 8 2 3 3 3 1 8 3 9 9 = some ⟨1, 8, 2, 7, 7⟩)
    ∧ (Shape5.orient ⟨1, 4, 2, 7, 7⟩ = 4 ∧ Shape5.orient ⟨1, 8, 2, 7, 7⟩ = 8) :=
  ⟨⟨by decide, by decide⟩,
    c5_orientation_axis_size 4 2 3 3 3 1 3 9 9 8 2 3 3 3 1 8 3 9 9
      ⟨1, 4, 2, 7, 7⟩ ⟨1, 8, 2, 7, 7⟩ (by decide) (by decide)⟩

/-- torch.reshape of the rotate_gconv_kernels stack, whose layout is
[N, cOUT, cIN, N, kH, kW], into [N*cOUT, N*cIN, kH, kW]
(NN_se2n_se2n._conv_forward, src/src/Nathan/layers.py line 253): the flat
offset of the target view is decoded back through the stack layout. -/
def Nathan.se2n_kernels_as_if_2D (N cOUT cIN kH kW : Nat) (rotOp : Nat → Nat → ℚ)
    (K : Nat → ℚ) (o i a b : Nat) : ℚ :=
  Nathan.rotate_gconv_kernels N cOUT cIN kH kW rotOp K
    ((((o * (N * cIN) + i) * kH + a) * kW + b) / (cOUT * cIN * N * kH * kW))
    ((((o * (N * cIN) + i) * kH + a) * kW + b) / (cIN * N * kH * kW) % cOUT)
    ((((o * (N * cIN) + i) * kH + a) * kW + b) / (N * kH * kW) % cIN)
    ((((o * (N * cIN) + i) * kH + a) * kW + b) / (kH * kW) % N)
    ((((o * (N * cIN) + i) * kH + a) * kW + b) / kW % kH)
    ((((o * (N * cIN) + i) * kH + a) * kW + b) % kW)

/-- Claim C1 (refuting evaluation): with a group kernel of shape
[N=2, cOUT=1, cIN=2, 1, 1] and the 1-by-1 rotation operator, the 2D-conv
kernel entry at merged output index s*cOUT+co = 0 and merged input index
n*cIN+ci = 1*2+0 = 2 is NOT the stack entry at shift 0, channelOut 0,
original-orientation 1, channelIn 0: the code merges the stack input axis in
(channelsIN, orientation) order, the opposite of the (orientation, channelsIN)
order used to merge the input tensor. -/
theorem c1_gconv_kernel_layout_mismatch :
    Nathan.se2n_kernels_as_if_2D 2 1 2 1 1 (specRotationOperator1x1 2) exKernel 0 2 0 0
      ≠ Nathan.rotate_gconv_kernels 2 1 2 1 1 (specRotationOperator1x1 2) exKernel 0 0 0 1 0 0 := by
  norm_num [Nathan.se2n_kernels_as_if_2D, Nathan.rotate_gconv_kernels,
    Nathan.kernels_planar_rotated, rotMMflat, rotMM, kernelColumns, rollMatrix,
    specRotationOperator1x1, exKernel, Finset.sum_range_succ]

/-- Claim C2 (refuting evaluation): with kernel shape [cOUT=1, cIN=2, kH=1,
kW=2] and N = 1 (identity operator), the Quentin implementation of
rotate_lifting_kernels at index (n, co, ci, h, w) = (0, 0, 0, 0, 1) returns
the product entry at offset 1 (value 2) instead of the claimed entry at row
n*kH*kW + h*kW + w = 1, column ci*cOUT + co = 0 (value 1), which the Nathan
implementation does return; the two implementations disagree. -/
theorem c2_lifting_reshape_disagreement :
    Quentin.rotate_lifting_kernels 1 2 1 2 specRotationOperatorN1 exKernel 0 0 0 0 1
      ≠ rotMM 2 specRotationOperatorN1 exKernel 1 0
    ∧ Nathan.rotate_lifting_kernels 1 2 1 2 specRotationOperatorN1 exKernel 0 0 0 0 1
      = rotMM 2 specRotationOperatorN1 exKernel 1 0 := by
  constructor
  · norm_num [Quentin.rotate_lifting_kernels, rotMMflat, rotMM, kernelColumns,
      specRotationOperatorN1, exKernel, Finset.sum_range_succ]
  · norm_num [Nathan.rotate_lifting_kernels, rotMMflat, rotMM, kernelColumns,
      specRotationOperatorN1, exKernel, Finset.sum_range_succ]

/-- Claim C8 (refuting evaluation): for orientationCount 1 and a 1-by-1
kernel of shape [cOUT=2, cIN=2, 1, 1] holding the flat values 0, 1, 2, 3, the
single slice of Nathan rotate_lifting_kernels at (co, ci) = (1, 0) is the
kernel entry at flat offset ci*cOUT + co = 1 (value 1), not the original
entry at flat offset (co*cIN + ci) = 2 (value 2): the rotated stack is not
the original kernel, its channel axes come back reindexed. -/
theorem c8_roundtrip_not_identity :
    Nathan.rotate_lifting_kernels 2 2 1 1 specRotationOperatorN1 exKernel 0 1 0 0 0
      ≠ exKernel 2 := by
  norm_num [Nathan.rotate_lifting_kernels, rotMMflat, rotMM, kernelColumns,
    specRotationOperatorN1, exKernel, Finset.sum_range_succ]

/-- Kind of block constructed at a scale of build_hourglass_roto: a plain
(non-equivariant) convolution block or the rotation-equivariant block. -/
inductive BlockKind where
  | ordinary : BlockKind
  | equivariant : BlockKind
deriving DecidableEq

/-- Encoder block choice of build_hourglass_roto.__init__
(src/src/Nathan/hourglass_roto.py, lines 35-48) at scale i: every branch
(i = 0, i = 3 and the rest) constructs the plain encoder_block; the
roto_encoder_block constructions are commented out. -/
def hourglassEncoderKind (i : Nat) : BlockKind :=
  if i = 0 then BlockKind.ordinary
  else if i = 3 then BlockKind.ordinary
  else BlockKind.ordinary

/-- Decoder block choice of build_hourglass_roto.__init__
(src/src/Nathan/hourglass_roto.py, lines 52-71) at scale i: the bottleneck
branch i = numScales-1 constructs decoder_block or decoder_noskip_block (the
roto line is commented out), the branch i distinct from 1 likewise, and only
the remaining branch (i = 1) constructs roto_decoder_skip_block or
roto_decoder_block. -/
def hourglassDecoderKind (numScales i : Nat) : BlockKind :=
  if i = numScales - 1 then BlockKind.ordinary
  else if i ≠ 1 then BlockKind.ordinary
  else BlockKind.equivariant

/-- Counterexample to claim C6: in the default five-scale network the
bottleneck (deepest) scale i = 4 does not use the Equivariant Block in either
its encoder or its decoder, contradicting the claim that the bottleneck and
one other scale are equivariant. -/
theorem c6_counterexample_bottleneck_ordinary :
    hourglassDecoderKind 5 4 ≠ BlockKind.equivariant
    ∧ hourglassEncoderKind 4 ≠ BlockKind.equivariant := by
  constructor
  · decide
  · decide

/-- Claim C6 as amended: for three or more scales, every encoder block is
ordinary, the decoder block is equivariant exactly at scale index 1, and the
bottleneck decoder is ordinary. -/
theorem c6_equivariant_only_at_scale_one (numScales i : Nat)
    (h3 : 3 ≤ numScales) (hi : i < numScales) :
    hourglassEncoderKind i = BlockKind.ordinary
    ∧ (hourglassDecoderKind numScales i = BlockKind.equivariant ↔ i = 1)
    ∧ hourglassDecoderKind numScales (numScales - 1) = BlockKind.ordinary := by
  refine ⟨?_, ?_, ?_⟩
  · unfold hourglassEncoderKind
    split_ifs <;> rfl
  · unfold hourglassDecoderKind
    split_ifs with hbot hne
    · constructor
      · intro hbad
        exact absurd hbad (by decide)
      · intro h1
        exfalso
        omega
    · constructor
      · intro hbad
        exact absurd hbad (by decide)
      · intro h1
        exact absurd h1 hne
    · simp only [Decidable.not_not] at hne
      exact ⟨fun _ => hne, fun _ => rfl⟩
  · unfold hourglassDecoderKind
    rw [if_pos rfl]

/-- Witness for C6: the amended statement at the default numScales = 5 and
scale i = 1. -/
theorem c6_equivariant_only_at_scale_one_witness :
    (3 ≤ 5 ∧ 1 < 5)
    ∧ (hourglassEncoderKind 1 = BlockKind.ordinary
      ∧ (hourglassDecoderKind 5 1 = BlockKind.equivariant ↔ 1 = 1)
      ∧ hourglassDecoderKind 5 4 = BlockKind.ordinary) :=
  ⟨⟨by decide, by decide⟩, c6_equivariant_only_at_scale_one 5 1 (by decide) (by decide)⟩

/-- nn.LeakyReLU(0.2): identity on nonnegative values, slope 1/5 below 0. -/
def leakyRelu (v : ℚ) : ℚ :=
  if v < 0 then (1 / 5) * v else v

/-- torch.max(x, 1).values: maximum over the orientation axis (axis 1) of an
SE2N tensor with orientation count N. -/
def orientationMax (N : Nat) (x : Map5) : Map4 :=
  fun b c h w => (List.range N).foldl (fun acc n => max acc (x b n c h w)) (x b 0 c h w)

/-- torch.nn.MaxPool2d(2): 2-by-2 spatial maximum with stride 2. -/
def maxPool2 (x : Map4) : Map4 :=
  fun b c h w =>
    max (max (x b c (2 * h) (2 * w)) (x b c (2 * h) (2 * w + 1)))
      (max (x b c (2 * h + 1) (2 * w)) (x b c (2 * h + 1) (2 * w + 1)))

/-- nn.BatchNorm2d in its inference form: the per-channel affine map
v at channel c goes to g c * v + beta c (g the effective scale from the
learned weight and running variance, beta the effective offset). -/
def batchNorm2 (g beta : Nat → ℚ) (x : Map4) : Map4 :=
  fun b c h w => g c * x b c h w + beta c

/-- Tail of roto_encoder_block.forward after the group-convolution stage
(src/src/Nathan/layers.py, lines 375-379), translated line by line:
x, _ = torch.max(x, 1); x = self.relu(x); x = self.maxpool(x);
x = self.bn2(x); x = self.relu(x). -/
def Nathan.roto_encoder_tail (N : Nat) (g beta : Nat → ℚ) (x : Map5) : Map4 :=
  let x1 := orientationMax N x
  let x2 := fun b c h w => leakyRelu (x1 b c h w)
  let x3 := maxPool2 x2
  let x4 := batchNorm2 g beta x3
  fun b c h w => leakyRelu (x4 b c h w)

/-- The order of steps asserted by the spec and claim C7:
maxpool2(relu(norm(max over orientation))). -/
def Nathan.roto_encoder_tail_spec (N : Nat) (g beta : Nat → ℚ) (x : Map5) : Map4 :=
  let x1 := orientationMax N x
  let x2 := batchNorm2 g beta x1
  let x3 := fun b c h w => leakyRelu (x2 b c h w)
  maxPool2 x3

/-- Counterexample to claim C7: with one orientation, identity normalization
and the constant input -1, the code tail gives -1/25 (relu, pool, norm, relu)
while the claimed order norm, relu, pool gives -1/5. -/
theorem c7_counterexample_tail_order :
    Nathan.roto_encoder_tail 1 (fun _ => 1) (fun _ => 0) (fun _ _ _ _ _ => -1) 0 0 0 0
      ≠ Nathan.roto_encoder_tail_spec 1 (fun _ => 1) (fun _ => 0) (fun _ _ _ _ _ => -1) 0 0 0 0 := by
  norm_num [Nathan.roto_encoder_tail, Nathan.roto_encoder_tail_spec, orientationMax,
    maxPool2, batchNorm2, leakyRelu, List.range_succ, List.range_zero,
    List.foldl_cons, List.foldl_nil, max_self]

/-- Claim C7 as amended: after the orientation maximum the encoder block
applies the leaky nonlinearity first, then the factor-2 spatial max-pool,
then the normalization, then the nonlinearity once more; the output equals
relu(norm(maxpool2(relu(max over orientation)))). -/
theorem c7_tail_actual_order (N : Nat) (g beta : Nat → ℚ) (x : Map5) (b c h w : Nat) :
    Nathan.roto_encoder_tail N g beta x b c h w
      = leakyRelu (batchNorm2 g beta
          (maxPool2 (fun b2 c2 h2 w2 => leakyRelu (orientationMax N x b2 c2 h2 w2))) b c h w) :=
  rfl

/-- State of an NN_z2_se2n module (src/src/Nathan/layers.py, lines 91-98):
the configured orientation count, kernel shape, stride, padding mode
(samePad false is the constructor default padding valid) and the learnable
lifting kernel as its flat vector [cOUT, cIN, kH, kW]. -/
structure NNz2 where
  Ntheta : Nat
  cOUT : Nat
  cIN : Nat
  kH : Nat
  kW : Nat
  stride : Nat
  samePad : Bool
  kernel : Nat → ℚ

/-- State of an NN_se2n_se2n module (src/src/Nathan/layers.py, lines 224-230):
kernel shape [N, cOUT, cIN, kH, kW] flattened, plus stride and padding. -/
structure NNse2n where
  N : Nat
  cOUT : Nat
  cIN : Nat
  kH : Nat
  kW : Nat
  stride : Nat
  samePad : Bool
  kernel : Nat → ℚ

/-- Zero padding of a spatial plane of extent H by W with margins padH and
padW, as applied implicitly by F.conv2d for padding same (padding valid has
zero margins). -/
def zeroPad (H W padH padW : Nat) (plane : Nat → Nat → ℚ) (a b : Nat) : ℚ :=
  if padH ≤ a ∧ a < H + padH ∧ padW ≤ b ∧ b < W + padW then
    plane (a - padH) (b - padW)
  else 0

/-- F.conv2d (cross-correlation, no bias): output channel o at spatial
position (h, w) sums weight o c i j times the padded input at
(h*stride + i, w*stride + j) over input channels c and kernel taps (i, j). -/
def conv2d (Cin kH kW stride padH padW H W : Nat) (x : Map4) (weight : Map4)
    (b o h w : Nat) : ℚ :=
  ∑ c in Finset.range Cin, ∑ i in Finset.range kH, ∑ j in Finset.range kW,
    weight o c i j * zeroPad H W padH padW (x b c) (h * stride + i) (w * stride + j)

/-- torch.reshape(kernel_stack, [N*cOUT, cIN, kH, kW]) in
NN_z2_se2n._conv_forward (src/src/Nathan/layers.py line 109): merging the
orientation and channelsOUT axes of the lifting stack. -/
def Nathan.z2_kernels_as_if_2D (m : NNz2) (rotOp : Nat → Nat → ℚ) : Map4 :=
  fun o c i j =>
    Nathan.rotate_lifting_kernels m.cOUT m.cIN m.kH m.kW rotOp m.kernel
      (o / m.cOUT) (o % m.cOUT) c i j

/-- NN_z2_se2n._conv_forward (src/src/Nathan/layers.py, lines 100-125): the
rotated stack is recomputed from the current kernel, merged into a 2D kernel
set, convolved against the input, and the output is split back into the
orientation and channel axes.  The rotation operator entries come from the
missing rotation module and are passed as a parameter. -/
def Nathan.z2_conv_forward (m : NNz2) (rotOp : Nat → Nat → ℚ) (H W : Nat) (x : Map4) : Map5 :=
  fun b n co h w =>
    conv2d m.cIN m.kH m.kW m.stride
      (if m.samePad then (m.kH - 1) / 2 else 0)
      (if m.samePad then (m.kW - 1) / 2 else 0) H W x
      (Nathan.z2_kernels_as_if_2D m rotOp) b (n * m.cOUT + co) h w

/-- NN_z2_se2n.forward: calls _conv_forward on the stored kernel and returns
its value; the module state is returned alongside to make the frame condition
of the method explicit (no attribute of self is assigned anywhere in it). -/
def Nathan.z2_forward (m : NNz2) (rotOp : Nat → Nat → ℚ) (H W : Nat) (x : Map4) :
    Map5 × NNz2 :=
  (Nathan.z2_conv_forward m rotOp H W x, m)

/-- torch.reshape of the SE2N input [B, Nin, Cin, H, W] to [B, N*cIN, H, W]
(src/src/Nathan/layers.py line 249): the merged channel index j decodes
through the input layout as orientation j / Cin, channel j % Cin. -/
def mergedSE2Ninput (Cin : Nat) (x : Map5) : Map4 :=
  fun b j h w => x b (j / Cin) (j % Cin) h w

/-- NN_se2n_se2n._conv_forward (src/src/Nathan/layers.py, lines 232-261): the
rotated-and-shifted stack is recomputed from the current kernel, merged into
a 2D kernel set, convolved against the orientation-merged input, and the
output is split back into the orientation and channel axes. -/
def Nathan.se2n_conv_forward (m : NNse2n) (rotOp : Nat → Nat → ℚ) (Cin H W : Nat)
    (x : Map5) : Map5 :=
  fun b n co h w =>
    conv2d (m.N * m.cIN) m.kH m.kW m.stride
      (if m.samePad then (m.kH - 1) / 2 else 0)
      (if m.samePad then (m.kW - 1) / 2 else 0) H W (mergedSE2Ninput Cin x)
      (Nathan.se2n_kernels_as_if_2D m.N m.cOUT m.cIN m.kH m.kW rotOp m.kernel)
      b (n * m.cOUT + co) h w

/-- NN_se2n_se2n.forward: calls _conv_forward on the stored kernel; the
module state is returned alongside, as in Nathan.z2_forward. -/
def Nathan.se2n_forward (m : NNse2n) (rotOp : Nat → Nat → ℚ) (Cin H W : Nat)
    (x : Map5) : Map5 × NNse2n :=
  (Nathan.se2n_conv_forward m rotOp Cin H W x, m)

/-- Claim C10: the forward passes of NN_z2_se2n and NN_se2n_se2n are
read-only on module state: they return the module with its kernel and
configuration fields unchanged, and the value they return is exactly the
convolution against the rotated stack freshly recomputed from the current
kernel field (no stack is held in the module record). -/
theorem c10_forward_readonly (m : NNz2) (m2 : NNse2n)
    (rotOp rotOp2 : Nat → Nat → ℚ) (H W Cin2 H2 W2 : Nat) (x : Map4) (y : Map5) :
    (Nathan.z2_forward m rotOp H W x).2 = m
    ∧ (Nathan.se2n_forward m2 rotOp2 Cin2 H2 W2 y).2 = m2
    ∧ (Nathan.z2_forward m rotOp H W x).1 = Nathan.z2_conv_forward m rotOp H W x
    ∧ (Nathan.se2n_forward m2 rotOp2 Cin2 H2 W2 y).1
        = Nathan.se2n_conv_forward m2 rotOp2 Cin2 H2 W2 y :=
  ⟨rfl, rfl, rfl, rfl⟩
